import Mathlib

/-!
Verification of the WakeExerHand motion-measurement engine specification.

This file shallowly embeds the parts of the repository that the claims
C1..C10 are about:

* the signed wrist flexion/extension angle algorithm `wrist_angle`
  (reference implementation embedded in the repository documentation),
* the assessment-completion handler of `server/routes.ts`
  (running `Math.max` maxima folds, temporal-quality gating with the
  `|| null` coercion, clock-stamped output record),
* the client session hand-type lock and running-maximum updates of
  `client/src/pages/quickdash-questionnaire.tsx`,
* the DASH questionnaire scorer of
  `client/src/components/dash-assessment.tsx`,
* spec-modelled stand-ins for the `shared/rom-calculator` and
  `shared/kapandji-calculator` modules, whose sources are not part of the
  repository snapshot (only their call sites are).

JavaScript numbers are modelled as real numbers (ℝ) where geometry is
involved and as rationals (ℚ) where the code only compares and folds
finite decimal data.  `undefined`/`null` are modelled as `Option`.
-/

namespace WakeExer

/-! ## 3D vectors and the wrist angle algorithm (src/unnamed/part_003, wrist_angle.py) -/

/-- A 3D landmark point in camera space, as used by `wrist_angle.py`. -/
structure Vec3 where
  x : ℝ
  y : ℝ
  z : ℝ

/-- Componentwise difference `a - b` of two landmark points. -/
noncomputable def vsub (a b : Vec3) : Vec3 :=
  ⟨a.x - b.x, a.y - b.y, a.z - b.z⟩

/-- Dot product of two 3D vectors. -/
noncomputable def dot3 (a b : Vec3) : ℝ :=
  a.x * b.x + a.y * b.y + a.z * b.z

/-- The z-component of the cross product `a × b`, the only component
`wrist_angle.py` uses (`cross[:, 2]`). -/
noncomputable def crossZ (a b : Vec3) : ℝ :=
  a.x * b.y - a.y * b.x

/-- Euclidean norm, `np.linalg.norm`. -/
noncomputable def norm3 (v : Vec3) : ℝ :=
  Real.sqrt (dot3 v v)

/-- The `_unit` helper from `wrist_angle.py`: return the unit vector, or the original
vector unchanged when its norm is zero (`v / n if n > 0 else v`). -/
noncomputable def unit3 (v : Vec3) : Vec3 :=
  if 0 < norm3 v then ⟨v.x / norm3 v, v.y / norm3 v, v.z / norm3 v⟩ else v

/-- The clamp `np.clip(d, -1, 1)`. -/
noncomputable def clip1 (d : ℝ) : ℝ :=
  max (-1) (min 1 d)

/-- The constant `DEG = 180.0 / np.pi` from `wrist_angle.py`. -/
noncomputable def degPerRad : ℝ := 180 / Real.pi

/-- The tiny additive bias `1e-9` used before taking the sign of the
cross product. -/
noncomputable def epsBias : ℝ := 1 / 1000000000

/-- The sign function `np.sign`: `-1`, `0` or `1` according to the sign of the argument. -/
noncomputable def sgn (x : ℝ) : ℝ :=
  if x < 0 then -1 else if x = 0 then 0 else 1

/-- The unsigned angle in degrees between two vectors:
`arccos(clip(dot(unit v, unit w), -1, 1)) * 180/π`.  This is the `theta`
of `wrist_angle.py` and also the per-joint angle formula of the finger
ROM calculation (spec §4.2). -/
noncomputable def jointAngleDeg (v w : Vec3) : ℝ :=
  Real.arccos (clip1 (dot3 (unit3 v) (unit3 w))) * degPerRad

/-- The clipped cosine that `wrist_angle.py` feeds to `arccos`. -/
noncomputable def wristClippedDot (elbow wrist handRef : Vec3) : ℝ :=
  clip1 (dot3 (unit3 (vsub wrist elbow)) (unit3 (vsub handRef wrist)))

/-- The `wrist_angle` function from `wrist_angle.py` for a single frame
(`median_k = 1`, the default, so no median filtering):
`forearm = wrist - elbow`, `handvec = middle_mcp - wrist`,
`theta = arccos(clip(dot(unit forearm, unit handvec))) * 180/π`,
`sign_raw = np.sign(cross(u_for, u_hand).z + 1e-9)`,
`side_factor = -1 if wrist.x < elbow.x else 1`,
result `theta * sign_raw * side_factor`. -/
noncomputable def wristAngle (elbow wrist handRef : Vec3) : ℝ :=
  let f := vsub wrist elbow
  let h := vsub handRef wrist
  let theta := jointAngleDeg f h
  let signRaw := sgn (crossZ (unit3 f) (unit3 h) + epsBias)
  let sideFactor : ℝ := if wrist.x < elbow.x then -1 else 1
  theta * signRaw * sideFactor

/-! ### Basic facts about the geometry helpers -/

lemma norm3_pos {v : Vec3} (h : 0 < dot3 v v) : 0 < norm3 v :=
  Real.sqrt_pos.mpr h

lemma norm3_nonneg (v : Vec3) : 0 ≤ norm3 v :=
  Real.sqrt_nonneg _

lemma norm3_le_one {v : Vec3} (h : dot3 v v ≤ 1) : norm3 v ≤ 1 := by
  have := Real.sqrt_le_sqrt h
  simpa [norm3] using this

lemma unit3_of_pos {v : Vec3} (h : 0 < dot3 v v) :
    unit3 v = ⟨v.x / norm3 v, v.y / norm3 v, v.z / norm3 v⟩ := by
  unfold unit3
  rw [if_pos (norm3_pos h)]

lemma dot3_unit3 {v w : Vec3} (hv : 0 < dot3 v v) (hw : 0 < dot3 w w) :
    dot3 (unit3 v) (unit3 w) = dot3 v w / (norm3 v * norm3 w) := by
  rw [unit3_of_pos hv, unit3_of_pos hw]
  have hv' := (norm3_pos hv).ne'
  have hw' := (norm3_pos hw).ne'
  unfold dot3
  field_simp

lemma crossZ_unit3 {v w : Vec3} (hv : 0 < dot3 v v) (hw : 0 < dot3 w w) :
    crossZ (unit3 v) (unit3 w) = crossZ v w / (norm3 v * norm3 w) := by
  rw [unit3_of_pos hv, unit3_of_pos hw]
  have hv' := (norm3_pos hv).ne'
  have hw' := (norm3_pos hw).ne'
  unfold crossZ
  field_simp

lemma clip1_mem (d : ℝ) : clip1 d ∈ Set.Icc (-1 : ℝ) 1 := by
  constructor
  · exact le_max_left _ _
  · unfold clip1
    have h1 : min 1 d ≤ 1 := min_le_left _ _
    exact max_le (by norm_num) h1

lemma clip1_lt_one {d : ℝ} (h : d < 1) : clip1 d < 1 := by
  unfold clip1
  have : min 1 d ≤ d := min_le_right _ _
  exact max_lt (by norm_num) (lt_of_le_of_lt this h)

lemma clip1_neg {d : ℝ} (h : d < 0) : clip1 d < 0 := by
  unfold clip1
  have : min 1 d ≤ d := min_le_right _ _
  exact max_lt (by norm_num) (lt_of_le_of_lt this h)

lemma degPerRad_pos : 0 < degPerRad :=
  div_pos (by norm_num) Real.pi_pos

lemma jointAngleDeg_nonneg (v w : Vec3) : 0 ≤ jointAngleDeg v w :=
  mul_nonneg (Real.arccos_nonneg _) degPerRad_pos.le

lemma jointAngleDeg_le_180 (v w : Vec3) : jointAngleDeg v w ≤ 180 := by
  unfold jointAngleDeg degPerRad
  have h1 : Real.arccos (clip1 (dot3 (unit3 v) (unit3 w))) ≤ Real.pi :=
    Real.arccos_le_pi _
  have h2 : (0 : ℝ) < 180 / Real.pi := div_pos (by norm_num) Real.pi_pos
  calc Real.arccos (clip1 (dot3 (unit3 v) (unit3 w))) * (180 / Real.pi)
      ≤ Real.pi * (180 / Real.pi) := by
        exact mul_le_mul_of_nonneg_right h1 h2.le
    _ = 180 := by
        field_simp

lemma jointAngleDeg_pos {v w : Vec3} (h : dot3 (unit3 v) (unit3 w) < 1) :
    0 < jointAngleDeg v w := by
  unfold jointAngleDeg
  exact mul_pos (Real.arccos_pos.mpr (clip1_lt_one h)) degPerRad_pos

lemma sgn_of_neg {x : ℝ} (h : x < 0) : sgn x = -1 := by
  unfold sgn
  rw [if_pos h]

lemma sgn_of_pos {x : ℝ} (h : 0 < x) : sgn x = 1 := by
  unfold sgn
  rw [if_neg (not_lt_of_gt h), if_neg h.ne']

lemma epsBias_pos : 0 < epsBias := by
  unfold epsBias
  norm_num

/-- If the raw dot product is negative, the raw cross-product z-component is
at most `-1/1000`, both vectors have squared norm in `(0, 1]`, and the arm is
on the right (`¬ wrist.x < elbow.x`), then the signed wrist angle is negative. -/
lemma wristAngle_neg_right {elbow wrist hand : Vec3}
    (hf : 0 < dot3 (vsub wrist elbow) (vsub wrist elbow))
    (hh : 0 < dot3 (vsub hand wrist) (vsub hand wrist))
    (hf1 : dot3 (vsub wrist elbow) (vsub wrist elbow) ≤ 1)
    (hh1 : dot3 (vsub hand wrist) (vsub hand wrist) ≤ 1)
    (hd : dot3 (vsub wrist elbow) (vsub hand wrist) < 0)
    (hc : crossZ (vsub wrist elbow) (vsub hand wrist) ≤ -(1/1000))
    (hside : ¬ wrist.x < elbow.x) :
    wristAngle elbow wrist hand < 0 := by
  have hst : 0 < norm3 (vsub wrist elbow) * norm3 (vsub hand wrist) :=
    mul_pos (norm3_pos hf) (norm3_pos hh)
  have hst1 : norm3 (vsub wrist elbow) * norm3 (vsub hand wrist) ≤ 1 := by
    nlinarith [norm3_le_one hf1, norm3_le_one hh1, norm3_nonneg (vsub wrist elbow),
      norm3_nonneg (vsub hand wrist)]
  have hdu : dot3 (unit3 (vsub wrist elbow)) (unit3 (vsub hand wrist)) < 1 := by
    rw [dot3_unit3 hf hh]
    exact lt_trans (div_neg_of_neg_of_pos hd hst) one_pos
  have htheta : 0 < jointAngleDeg (vsub wrist elbow) (vsub hand wrist) :=
    jointAngleDeg_pos hdu
  have hcu : crossZ (unit3 (vsub wrist elbow)) (unit3 (vsub hand wrist)) + epsBias < 0 := by
    rw [crossZ_unit3 hf hh]
    have h1 : crossZ (vsub wrist elbow) (vsub hand wrist) /
        (norm3 (vsub wrist elbow) * norm3 (vsub hand wrist)) < -epsBias := by
      rw [div_lt_iff₀ hst]
      have h2 : epsBias * (norm3 (vsub wrist elbow) * norm3 (vsub hand wrist)) ≤ epsBias := by
        nlinarith [epsBias_pos, hst]
      have h3 : epsBias < 1/1000 := by
        unfold epsBias
        norm_num
      nlinarith
    linarith
  show jointAngleDeg _ _ * sgn _ * _ < 0
  rw [sgn_of_neg hcu, if_neg hside]
  nlinarith

/-- If the raw dot product is negative, the raw cross-product z-component is
nonnegative, and the arm is on the left (`wrist.x < elbow.x`), then the signed
wrist angle is negative. -/
lemma wristAngle_neg_left {elbow wrist hand : Vec3}
    (hf : 0 < dot3 (vsub wrist elbow) (vsub wrist elbow))
    (hh : 0 < dot3 (vsub hand wrist) (vsub hand wrist))
    (hd : dot3 (vsub wrist elbow) (vsub hand wrist) < 0)
    (hc : 0 ≤ crossZ (vsub wrist elbow) (vsub hand wrist))
    (hside : wrist.x < elbow.x) :
    wristAngle elbow wrist hand < 0 := by
  have hst : 0 < norm3 (vsub wrist elbow) * norm3 (vsub hand wrist) :=
    mul_pos (norm3_pos hf) (norm3_pos hh)
  have hdu : dot3 (unit3 (vsub wrist elbow)) (unit3 (vsub hand wrist)) < 1 := by
    rw [dot3_unit3 hf hh]
    exact lt_trans (div_neg_of_neg_of_pos hd hst) one_pos
  have htheta : 0 < jointAngleDeg (vsub wrist elbow) (vsub hand wrist) :=
    jointAngleDeg_pos hdu
  have hcu : 0 < crossZ (unit3 (vsub wrist elbow)) (unit3 (vsub hand wrist)) + epsBias := by
    rw [crossZ_unit3 hf hh]
    have : 0 ≤ crossZ (vsub wrist elbow) (vsub hand wrist) /
        (norm3 (vsub wrist elbow) * norm3 (vsub hand wrist)) :=
      div_nonneg hc hst.le
    linarith [epsBias_pos]
  show jointAngleDeg _ _ * sgn _ * _ < 0
  rw [sgn_of_pos hcu, if_pos hside]
  nlinarith

/-- If the raw dot product is positive but the vectors are not parallel
(strict Cauchy-Schwarz), the raw cross-product z-component is nonnegative, and
the arm is on the right, then the signed wrist angle is positive. -/
lemma wristAngle_pos_right {elbow wrist hand : Vec3}
    (hf : 0 < dot3 (vsub wrist elbow) (vsub wrist elbow))
    (hh : 0 < dot3 (vsub hand wrist) (vsub hand wrist))
    (hsq : (dot3 (vsub wrist elbow) (vsub hand wrist)) ^ 2 <
      dot3 (vsub wrist elbow) (vsub wrist elbow) * dot3 (vsub hand wrist) (vsub hand wrist))
    (hc : 0 ≤ crossZ (vsub wrist elbow) (vsub hand wrist))
    (hside : ¬ wrist.x < elbow.x) :
    0 < wristAngle elbow wrist hand := by
  have hst : 0 < norm3 (vsub wrist elbow) * norm3 (vsub hand wrist) :=
    mul_pos (norm3_pos hf) (norm3_pos hh)
  have hstsq : (norm3 (vsub wrist elbow) * norm3 (vsub hand wrist)) ^ 2 =
      dot3 (vsub wrist elbow) (vsub wrist elbow) * dot3 (vsub hand wrist) (vsub hand wrist) := by
    rw [mul_pow]
    unfold norm3
    rw [Real.sq_sqrt hf.le, Real.sq_sqrt hh.le]
  have hdlt : dot3 (vsub wrist elbow) (vsub hand wrist) <
      norm3 (vsub wrist elbow) * norm3 (vsub hand wrist) := by
    have := hsq
    rw [← hstsq] at this
    exact lt_of_pow_lt_pow_left₀ 2 hst.le this
  have hdu : dot3 (unit3 (vsub wrist elbow)) (unit3 (vsub hand wrist)) < 1 := by
    rw [dot3_unit3 hf hh]
    exact (div_lt_one hst).mpr hdlt
  have htheta : 0 < jointAngleDeg (vsub wrist elbow) (vsub hand wrist) :=
    jointAngleDeg_pos hdu
  have hcu : 0 < crossZ (unit3 (vsub wrist elbow)) (unit3 (vsub hand wrist)) + epsBias := by
    rw [crossZ_unit3 hf hh]
    have : 0 ≤ crossZ (vsub wrist elbow) (vsub hand wrist) /
        (norm3 (vsub wrist elbow) * norm3 (vsub hand wrist)) :=
      div_nonneg hc hst.le
    linarith [epsBias_pos]
  show 0 < jointAngleDeg _ _ * sgn _ * _
  rw [sgn_of_pos hcu, if_neg hside]
  nlinarith

/-- Claim C1: the literal test scenario of `wrist_angle.py` asserts the
signed angles `[+60, -30, +60]` for its three synthetic frames, but the
implementation itself produces a *negative* angle for the first and third
frames (≈ -109.7°) and a *positive* angle for the second (≈ +70.3°).  The
signs alone contradict the asserted values, so the bundled unit test fails
against the implementation: `wrist_angle` of the code disagrees with its own
assertion (and with the spec sentence quoting it). -/
theorem c1_wrist_angle_inline_test_violated :
    wristAngle ⟨0.1, 0.3, 0⟩ ⟨0.2, 0.5, 0⟩ ⟨0.18, 0.45, 0.15⟩ < 0 ∧
    0 < wristAngle ⟨0.1, 0.3, 0⟩ ⟨0.2, 0.5, 0⟩ ⟨0.22, 0.55, 0.15⟩ ∧
    wristAngle ⟨-0.1, 0.3, 0⟩ ⟨-0.2, 0.5, 0⟩ ⟨-0.18, 0.45, 0.15⟩ < 0 := by
  refine ⟨?_, ?_, ?_⟩
  · apply wristAngle_neg_right
    · show (0:ℝ) < dot3 (vsub ⟨0.2, 0.5, 0⟩ ⟨0.1, 0.3, 0⟩) (vsub ⟨0.2, 0.5, 0⟩ ⟨0.1, 0.3, 0⟩)
      norm_num [dot3, vsub]
    · norm_num [dot3, vsub]
    · norm_num [dot3, vsub]
    · norm_num [dot3, vsub]
    · norm_num [dot3, vsub]
    · norm_num [crossZ, vsub]
    · norm_num
  · apply wristAngle_pos_right
    · norm_num [dot3, vsub]
    · norm_num [dot3, vsub]
    · norm_num [dot3, vsub]
    · norm_num [crossZ, vsub]
    · norm_num
  · apply wristAngle_neg_left
    · norm_num [dot3, vsub]
    · norm_num [dot3, vsub]
    · norm_num [dot3, vsub]
    · norm_num [crossZ, vsub]
    · norm_num

lemma abs_sgn_le (x : ℝ) : |sgn x| ≤ 1 := by
  unfold sgn
  split_ifs <;> simp

lemma vsub_self (p : Vec3) : vsub p p = ⟨0, 0, 0⟩ := by
  simp [vsub]

lemma unit3_zero : unit3 ⟨0, 0, 0⟩ = ⟨0, 0, 0⟩ := by
  simp [unit3, norm3, dot3]

/-- Claim C8: the wrist-angle computation is total and bounded.  For every
input frame the clipped cosine fed to `arccos` lies in `[-1, 1]` (so the
`arccos` is always applied inside its domain — no NaN), and the signed angle
lies in `[-180, 180]`; moreover for the fully degenerate frame where elbow,
wrist and hand reference coincide (all three vectors zero-length), the
zero-norm guard of `_unit`, the clipping, and the `1e-9` sign bias yield the
well-defined deterministic value `90`. -/
theorem c8_wrist_angle_total_and_bounded :
    (∀ elbow wrist handRef : Vec3,
      wristClippedDot elbow wrist handRef ∈ Set.Icc (-1 : ℝ) 1 ∧
      wristAngle elbow wrist handRef ∈ Set.Icc (-180 : ℝ) 180) ∧
    (∀ p : Vec3, wristAngle p p p = 90) := by
  constructor
  · intro elbow wrist handRef
    refine ⟨clip1_mem _, ?_⟩
    rw [Set.mem_Icc, ← abs_le]
    show |jointAngleDeg (vsub wrist elbow) (vsub handRef wrist) *
        sgn (crossZ (unit3 (vsub wrist elbow)) (unit3 (vsub handRef wrist)) + epsBias) *
        (if wrist.x < elbow.x then (-1 : ℝ) else 1)| ≤ 180
    rw [abs_mul, abs_mul]
    have h1 : |jointAngleDeg (vsub wrist elbow) (vsub handRef wrist)| ≤ 180 := by
      rw [abs_of_nonneg (jointAngleDeg_nonneg _ _)]
      exact jointAngleDeg_le_180 _ _
    have h2 : |sgn (crossZ (unit3 (vsub wrist elbow)) (unit3 (vsub handRef wrist)) + epsBias)| ≤ 1 :=
      abs_sgn_le _
    have h3 : |(if wrist.x < elbow.x then (-1 : ℝ) else 1)| ≤ 1 := by
      split_ifs <;> norm_num
    have h4 : (0:ℝ) ≤ |jointAngleDeg (vsub wrist elbow) (vsub handRef wrist)| := abs_nonneg _
    have h5 : (0:ℝ) ≤
        |sgn (crossZ (unit3 (vsub wrist elbow)) (unit3 (vsub handRef wrist)) + epsBias)| :=
      abs_nonneg _
    have h6 : (0:ℝ) ≤ |(if wrist.x < elbow.x then (-1 : ℝ) else 1)| := abs_nonneg _
    have hts := mul_le_mul h1 h2 h5 (by norm_num : (0:ℝ) ≤ 180)
    have hall := mul_le_mul hts h3 h6 (by norm_num : (0:ℝ) ≤ 180 * 1)
    linarith
  · intro p
    show jointAngleDeg (vsub p p) (vsub p p) *
        sgn (crossZ (unit3 (vsub p p)) (unit3 (vsub p p)) + epsBias) *
        (if p.x < p.x then (-1 : ℝ) else 1) = 90
    rw [vsub_self, if_neg (lt_irrefl p.x)]
    have hja : jointAngleDeg (⟨0, 0, 0⟩ : Vec3) ⟨0, 0, 0⟩ = 90 := by
      unfold jointAngleDeg
      rw [unit3_zero]
      have hd0 : dot3 (⟨0, 0, 0⟩ : Vec3) ⟨0, 0, 0⟩ = 0 := by simp [dot3]
      rw [hd0]
      have hc0 : clip1 0 = 0 := by norm_num [clip1]
      rw [hc0, Real.arccos_zero]
      unfold degPerRad
      have hpi := Real.pi_ne_zero
      field_simp
      ring
    have hcz : crossZ (unit3 (⟨0, 0, 0⟩ : Vec3)) (unit3 ⟨0, 0, 0⟩) = 0 := by
      rw [unit3_zero]
      simp [crossZ]
    rw [hja, hcz, sgn_of_pos (by simpa using epsBias_pos)]
    norm_num

/-! ## Finger joint angles and Total Active Motion (spec §4.2) -/

/-- Per-finger joint angles and total active motion, as produced by the ROM
calculator for one frame. -/
structure FingerJointAngles where
  mcpAngle : ℝ
  pipAngle : ℝ
  dipAngle : ℝ
  totalActiveRom : ℝ

/-- Modelled from the spec: the per-finger joint-angle computation of
`shared/rom-calculator` is not part of the repository snapshot (only its call
sites in `server/routes.ts` and the client page are).  Spec §4.2: consecutive
bone vectors are formed from the finger landmarks, each joint angle is
`arccos(clamp(dot(unit v1, unit v2), -1, 1)) * 180/π` between the two adjacent
bone vectors, and `totalActiveRom` is the sum of the MCP, PIP and DIP angle
magnitudes.  The wrist landmark supplies the proximal bone for the MCP joint. -/
noncomputable def fingerAngles (wrist mcp pip dip tip : Vec3) : FingerJointAngles :=
  let v0 := vsub mcp wrist
  let v1 := vsub pip mcp
  let v2 := vsub dip pip
  let v3 := vsub tip dip
  { mcpAngle := jointAngleDeg v0 v1
    pipAngle := jointAngleDeg v1 v2
    dipAngle := jointAngleDeg v2 v3
    totalActiveRom := jointAngleDeg v0 v1 + jointAngleDeg v1 v2 + jointAngleDeg v2 v3 }

lemma unit3_e1 : unit3 ⟨1, 0, 0⟩ = ⟨1, 0, 0⟩ := by
  have h : norm3 (⟨1, 0, 0⟩ : Vec3) = 1 := by
    unfold norm3 dot3
    norm_num
  unfold unit3
  rw [h]
  norm_num

lemma unit3_negE1 : unit3 ⟨-1, 0, 0⟩ = ⟨-1, 0, 0⟩ := by
  have h : norm3 (⟨-1, 0, 0⟩ : Vec3) = 1 := by
    unfold norm3 dot3
    norm_num
  unfold unit3
  rw [h]
  norm_num

lemma jointAngleDeg_e1_opp : jointAngleDeg ⟨1, 0, 0⟩ ⟨-1, 0, 0⟩ = 180 := by
  unfold jointAngleDeg
  rw [unit3_e1, unit3_negE1]
  have hd : dot3 (⟨1, 0, 0⟩ : Vec3) ⟨-1, 0, 0⟩ = -1 := by
    unfold dot3
    norm_num
  have hc : clip1 (-1) = -1 := by
    unfold clip1
    norm_num
  rw [hd, hc, Real.arccos_neg_one]
  unfold degPerRad
  have hpi := Real.pi_ne_zero
  field_simp

lemma jointAngleDeg_negE1_opp : jointAngleDeg ⟨-1, 0, 0⟩ ⟨1, 0, 0⟩ = 180 := by
  unfold jointAngleDeg
  rw [unit3_e1, unit3_negE1]
  have hd : dot3 (⟨-1, 0, 0⟩ : Vec3) ⟨1, 0, 0⟩ = -1 := by
    unfold dot3
    norm_num
  have hc : clip1 (-1) = -1 := by
    unfold clip1
    norm_num
  rw [hd, hc, Real.arccos_neg_one]
  unfold degPerRad
  have hpi := Real.pi_ne_zero
  field_simp

/-- Counterexample to claim C6: a (geometrically degenerate but admissible)
frame in which every bone vector reverses the previous one yields three joint
angles of 180° each, so the per-finger total active motion is 540°, exceeding
the claimed bound of 300. -/
theorem c6_counterexample_tam_exceeds_300 :
    (fingerAngles ⟨0, 0, 0⟩ ⟨1, 0, 0⟩ ⟨0, 0, 0⟩ ⟨1, 0, 0⟩ ⟨0, 0, 0⟩).totalActiveRom = 540 ∧
    ¬ (fingerAngles ⟨0, 0, 0⟩ ⟨1, 0, 0⟩ ⟨0, 0, 0⟩ ⟨1, 0, 0⟩ ⟨0, 0, 0⟩).totalActiveRom ≤ 300 := by
  have hv1 : vsub (⟨1, 0, 0⟩ : Vec3) ⟨0, 0, 0⟩ = ⟨1, 0, 0⟩ := by
    unfold vsub
    norm_num
  have hv2 : vsub (⟨0, 0, 0⟩ : Vec3) ⟨1, 0, 0⟩ = ⟨-1, 0, 0⟩ := by
    unfold vsub
    norm_num
  have h : (fingerAngles ⟨0, 0, 0⟩ ⟨1, 0, 0⟩ ⟨0, 0, 0⟩ ⟨1, 0, 0⟩ ⟨0, 0, 0⟩).totalActiveRom
      = 540 := by
    show jointAngleDeg (vsub ⟨1, 0, 0⟩ ⟨0, 0, 0⟩) (vsub ⟨0, 0, 0⟩ ⟨1, 0, 0⟩) +
        jointAngleDeg (vsub ⟨0, 0, 0⟩ ⟨1, 0, 0⟩) (vsub ⟨1, 0, 0⟩ ⟨0, 0, 0⟩) +
        jointAngleDeg (vsub ⟨1, 0, 0⟩ ⟨0, 0, 0⟩) (vsub ⟨0, 0, 0⟩ ⟨1, 0, 0⟩) = 540
    rw [hv1, hv2, jointAngleDeg_e1_opp, jointAngleDeg_negE1_opp]
    norm_num
  refine ⟨h, ?_⟩
  rw [h]
  norm_num

/-- Claim C6 (amended): every computed joint angle lies in `[0, 180]`, and the
per-finger total active motion (sum of the three joint angles) lies in
`[0, 540]` — the claimed bound of 300 is not implied by the arccos formula,
as the counterexample shows; 540 = 3 × 180 is the tight bound. -/
theorem c6_amended_angle_and_tam_bounds :
    ∀ wrist mcp pip dip tip : Vec3,
      (fingerAngles wrist mcp pip dip tip).mcpAngle ∈ Set.Icc (0 : ℝ) 180 ∧
      (fingerAngles wrist mcp pip dip tip).pipAngle ∈ Set.Icc (0 : ℝ) 180 ∧
      (fingerAngles wrist mcp pip dip tip).dipAngle ∈ Set.Icc (0 : ℝ) 180 ∧
      (fingerAngles wrist mcp pip dip tip).totalActiveRom ∈ Set.Icc (0 : ℝ) 540 := by
  intro wrist mcp pip dip tip
  have h1a := jointAngleDeg_nonneg (vsub mcp wrist) (vsub pip mcp)
  have h1b := jointAngleDeg_le_180 (vsub mcp wrist) (vsub pip mcp)
  have h2a := jointAngleDeg_nonneg (vsub pip mcp) (vsub dip pip)
  have h2b := jointAngleDeg_le_180 (vsub pip mcp) (vsub dip pip)
  have h3a := jointAngleDeg_nonneg (vsub dip pip) (vsub tip dip)
  have h3b := jointAngleDeg_le_180 (vsub dip pip) (vsub tip dip)
  refine ⟨⟨h1a, h1b⟩, ⟨h2a, h2b⟩, ⟨h3a, h3b⟩, ?_, ?_⟩
  · show (0:ℝ) ≤ jointAngleDeg _ _ + jointAngleDeg _ _ + jointAngleDeg _ _
    linarith
  · show jointAngleDeg _ _ + jointAngleDeg _ _ + jointAngleDeg _ _ ≤ (540:ℝ)
    linarith

/-! ## Session hand-type lock (client/src/pages/quickdash-questionnaire.tsx) -/

/-- Hand type as used by the client (`'LEFT' | 'RIGHT' | 'UNKNOWN'`). -/
inductive HandType where
  | LEFT
  | RIGHT
  | UNKNOWN
deriving DecidableEq

/-- The fields of a MediaPipe tracker update that the session-lock logic
reads; `none` models an absent (`undefined`) field. -/
structure TrackerUpdate where
  lockedHandType : Option HandType
  detectedHandSide : Option HandType
  sessionHandType : Option HandType
  handType : Option HandType

/-- A present hand-type value that is not `'UNKNOWN'`
(the JS test `data.f && data.f !== 'UNKNOWN'`). -/
def confident (o : Option HandType) : Option HandType :=
  match o with
  | some h => if h = HandType.UNKNOWN then none else some h
  | none => none

/-- JavaScript `a || b` over possibly-absent hand-type strings: the first
present value wins (every present hand-type string is truthy). -/
def jsOrHT (a b : Option HandType) : Option HandType :=
  match a with
  | some h => some h
  | none => b

/-- The session-lock transition of `handleMediaPipeUpdate`: only when the
session hand type is still `'UNKNOWN'` is it set, preferring the tracker's
`lockedHandType`, then `detectedHandSide`; otherwise the existing lock is
maintained. -/
def updateSessionLock (cur : HandType) (d : TrackerUpdate) : HandType :=
  if cur = HandType.UNKNOWN then
    match confident d.lockedHandType with
    | some h => h
    | none =>
      match confident d.detectedHandSide with
      | some h => h
      | none => cur
  else cur

/-- The `handedness` field stored on each recorded motion frame:
`sessionHandType !== 'UNKNOWN' ? sessionHandType : (data.sessionHandType ||
data.lockedHandType || data.detectedHandSide || data.handType || "LEFT")`. -/
def frameHandedness (lock : HandType) (d : TrackerUpdate) : HandType :=
  if lock ≠ HandType.UNKNOWN then lock
  else (jsOrHT d.sessionHandType (jsOrHT d.lockedHandType
    (jsOrHT d.detectedHandSide d.handType))).getD HandType.LEFT

lemma updateSessionLock_locked {cur : HandType} (h : cur ≠ HandType.UNKNOWN)
    (d : TrackerUpdate) : updateSessionLock cur d = cur := by
  unfold updateSessionLock
  rw [if_neg h]

/-- Claim C5: once the session hand type is locked (≠ UNKNOWN), processing any
further tracker updates — including updates whose per-frame handedness
detection reports the opposite hand — leaves the lock unchanged, and every
recorded frame's handedness field equals the locked value. -/
theorem c5_session_lock_stable (cur : HandType) (ds : List TrackerUpdate)
    (h : cur ≠ HandType.UNKNOWN) :
    List.foldl updateSessionLock cur ds = cur ∧
    ∀ d ∈ ds, frameHandedness cur d = cur := by
  constructor
  · induction ds with
    | nil => rfl
    | cons d ds ih =>
      rw [List.foldl_cons, updateSessionLock_locked h, ih]
  · intro d _
    unfold frameHandedness
    rw [if_pos h]

/-- Witness for C5: a session locked to LEFT stays LEFT across an update in
which the tracker confidently reports RIGHT for every handedness field. -/
theorem c5_witness :
    List.foldl updateSessionLock HandType.LEFT
      [⟨some HandType.RIGHT, some HandType.RIGHT, some HandType.RIGHT, some HandType.RIGHT⟩] =
      HandType.LEFT ∧
    frameHandedness HandType.LEFT
      ⟨some HandType.RIGHT, some HandType.RIGHT, some HandType.RIGHT, some HandType.RIGHT⟩ =
      HandType.LEFT := by
  refine ⟨(c5_session_lock_stable HandType.LEFT
      [⟨some HandType.RIGHT, some HandType.RIGHT, some HandType.RIGHT, some HandType.RIGHT⟩]
      (by decide)).1,
    (c5_session_lock_stable HandType.LEFT
      [⟨some HandType.RIGHT, some HandType.RIGHT, some HandType.RIGHT, some HandType.RIGHT⟩]
      (by decide)).2 _ ?_⟩
  simp

/-! ## Running session maxima (server/routes.ts complete handler, and the
client `setMaxROM` fold) -/

/-- A landmark point with rational coordinates, as recorded in a motion frame
(`parseFloat(landmark.x) || 0` etc.). -/
structure Vec3Q where
  x : ℚ
  y : ℚ
  z : ℚ
deriving DecidableEq

/-- The `rep.romData` object: per-repetition joint angle summary. -/
structure RomData (α : Type) where
  mcpAngle : Option α
  pipAngle : Option α
  dipAngle : Option α
  totalActiveRom : Option α

/-- The `frame.wristAngles` object on a recorded motion frame. -/
structure WristAnglePair (α : Type) where
  wristFlexionAngle : Option α
  wristExtensionAngle : Option α

/-- A recorded motion frame as the complete handler reads it. -/
structure MotionFrame (α : Type) where
  landmarks : List Vec3Q
  wristAngles : Option (WristAnglePair α)

/-- One entry of `repetitionData`. -/
structure Repetition (α : Type) where
  romData : Option (RomData α)
  wristFlexionAngle : Option α
  wristExtensionAngle : Option α
  maxWristFlexion : Option α
  maxWristExtension : Option α
  motionData : Option (List (MotionFrame α))

/-- The mutable maxima of the completion handler while it walks
`repetitionData`. -/
structure FoldState (α : Type) where
  maxMcpAngle : Option α
  maxPipAngle : Option α
  maxDipAngle : Option α
  totalActiveRom : Option α
  wristFlexionAngle : Option α
  wristExtensionAngle : Option α
  maxWristFlexion : Option α
  maxWristExtension : Option α

/-- JavaScript `x || 0` on a possibly-absent number. -/
def orZero {α : Type} [Zero α] (o : Option α) : α :=
  o.getD 0

/-- One `v = Math.max(v || 0, x)` update. -/
def foldMax {α : Type} [LinearOrder α] [Zero α] (cur : Option α) (x : α) : Option α :=
  some (max (orZero cur) x)

/-- The four `rep.romData` updates of the handler. -/
def stepRomData {α : Type} [LinearOrder α] [Zero α]
    (s : FoldState α) (rd : Option (RomData α)) : FoldState α :=
  match rd with
  | none => s
  | some r =>
    { s with
      maxMcpAngle := foldMax s.maxMcpAngle (orZero r.mcpAngle)
      maxPipAngle := foldMax s.maxPipAngle (orZero r.pipAngle)
      maxDipAngle := foldMax s.maxDipAngle (orZero r.dipAngle)
      totalActiveRom := foldMax s.totalActiveRom (orZero r.totalActiveRom) }

/-- The update `if (x !== undefined) wristFlexionAngle = Math.max(wristFlexionAngle || 0, x)`. -/
def updFlex {α : Type} [LinearOrder α] [Zero α]
    (s : FoldState α) (v : Option α) : FoldState α :=
  match v with
  | some x => { s with wristFlexionAngle := foldMax s.wristFlexionAngle x }
  | none => s

/-- The same update for `wristExtensionAngle`. -/
def updExt {α : Type} [LinearOrder α] [Zero α]
    (s : FoldState α) (v : Option α) : FoldState α :=
  match v with
  | some x => { s with wristExtensionAngle := foldMax s.wristExtensionAngle x }
  | none => s

/-- The same update for `maxWristFlexion`. -/
def updMaxFlex {α : Type} [LinearOrder α] [Zero α]
    (s : FoldState α) (v : Option α) : FoldState α :=
  match v with
  | some x => { s with maxWristFlexion := foldMax s.maxWristFlexion x }
  | none => s

/-- The same update for `maxWristExtension`. -/
def updMaxExt {α : Type} [LinearOrder α] [Zero α]
    (s : FoldState α) (v : Option α) : FoldState α :=
  match v with
  | some x => { s with maxWristExtension := foldMax s.maxWristExtension x }
  | none => s

/-- Processing the `frame.wristAngles` of one motion frame. -/
def stepFrame {α : Type} [LinearOrder α] [Zero α]
    (s : FoldState α) (f : MotionFrame α) : FoldState α :=
  match f.wristAngles with
  | none => s
  | some wa => updExt (updFlex s wa.wristFlexionAngle) wa.wristExtensionAngle

/-- Processing one entry of `repetitionData` (the body of the `forEach`). -/
def stepRepetition {α : Type} [LinearOrder α] [Zero α]
    (s : FoldState α) (rep : Repetition α) : FoldState α :=
  let s1 := stepRomData s rep.romData
  let s2 := updMaxExt (updMaxFlex (updExt (updFlex s1 rep.wristFlexionAngle)
    rep.wristExtensionAngle) rep.maxWristFlexion) rep.maxWristExtension
  match rep.motionData with
  | none => s2
  | some frames => frames.foldl stepFrame s2

/-- After the loop: `if (wristFlexionAngle !== null && !== undefined)
maxWristFlexion = Math.max(maxWristFlexion || 0, wristFlexionAngle)`. -/
def finFlexToMax {α : Type} [LinearOrder α] [Zero α] (s : FoldState α) : FoldState α :=
  match s.wristFlexionAngle with
  | some v => { s with maxWristFlexion := foldMax s.maxWristFlexion v }
  | none => s

/-- The corresponding update of `maxWristExtension` from `wristExtensionAngle`. -/
def finExtToMax {α : Type} [LinearOrder α] [Zero α] (s : FoldState α) : FoldState α :=
  match s.wristExtensionAngle with
  | some v => { s with maxWristExtension := foldMax s.maxWristExtension v }
  | none => s

/-- The two updates after the loop: fold the recorded flexion/extension angle
into `maxWristFlexion` / `maxWristExtension` when present. -/
def finalizeWristMax {α : Type} [LinearOrder α] [Zero α]
    (s : FoldState α) : FoldState α :=
  finExtToMax (finFlexToMax s)

/-- The handler's whole maxima computation over `repetitionData`. -/
def serverMaximaFold {α : Type} [LinearOrder α] [Zero α]
    (init : FoldState α) (reps : List (Repetition α)) : FoldState α :=
  finalizeWristMax (reps.foldl stepRepetition init)

/-- Order on optional maxima: a stored value may appear or grow, never shrink
or disappear. -/
def oleq {α : Type} [Preorder α] (a b : Option α) : Prop :=
  ∀ v, a = some v → ∃ w, b = some w ∧ v ≤ w

lemma oleq_refl {α : Type} [Preorder α] (a : Option α) : oleq a a :=
  fun v hv => ⟨v, hv, le_refl v⟩

lemma oleq_trans {α : Type} [Preorder α] {a b c : Option α}
    (h1 : oleq a b) (h2 : oleq b c) : oleq a c := by
  intro v hv
  obtain ⟨w, hw, hvw⟩ := h1 v hv
  obtain ⟨u, hu, hwu⟩ := h2 w hw
  exact ⟨u, hu, le_trans hvw hwu⟩

lemma oleq_foldMax {α : Type} [LinearOrder α] [Zero α] (cur : Option α) (x : α) :
    oleq cur (foldMax cur x) := by
  intro v hv
  refine ⟨max (orZero cur) x, rfl, ?_⟩
  rw [hv]
  exact le_max_left v x

/-- Fieldwise `oleq` between two fold states. -/
def stateLe {α : Type} [Preorder α] (s t : FoldState α) : Prop :=
  oleq s.maxMcpAngle t.maxMcpAngle ∧
  oleq s.maxPipAngle t.maxPipAngle ∧
  oleq s.maxDipAngle t.maxDipAngle ∧
  oleq s.totalActiveRom t.totalActiveRom ∧
  oleq s.wristFlexionAngle t.wristFlexionAngle ∧
  oleq s.wristExtensionAngle t.wristExtensionAngle ∧
  oleq s.maxWristFlexion t.maxWristFlexion ∧
  oleq s.maxWristExtension t.maxWristExtension

lemma stateLe_refl {α : Type} [Preorder α] (s : FoldState α) : stateLe s s :=
  ⟨oleq_refl _, oleq_refl _, oleq_refl _, oleq_refl _,
   oleq_refl _, oleq_refl _, oleq_refl _, oleq_refl _⟩

lemma stateLe_trans {α : Type} [Preorder α] {s t u : FoldState α}
    (h1 : stateLe s t) (h2 : stateLe t u) : stateLe s u :=
  ⟨oleq_trans h1.1 h2.1, oleq_trans h1.2.1 h2.2.1, oleq_trans h1.2.2.1 h2.2.2.1,
   oleq_trans h1.2.2.2.1 h2.2.2.2.1, oleq_trans h1.2.2.2.2.1 h2.2.2.2.2.1,
   oleq_trans h1.2.2.2.2.2.1 h2.2.2.2.2.2.1, oleq_trans h1.2.2.2.2.2.2.1 h2.2.2.2.2.2.2.1,
   oleq_trans h1.2.2.2.2.2.2.2 h2.2.2.2.2.2.2.2⟩

lemma stateLe_stepRomData {α : Type} [LinearOrder α] [Zero α]
    (s : FoldState α) (rd : Option (RomData α)) : stateLe s (stepRomData s rd) := by
  cases rd with
  | none => exact stateLe_refl s
  | some r =>
    exact ⟨oleq_foldMax _ _, oleq_foldMax _ _, oleq_foldMax _ _, oleq_foldMax _ _,
      oleq_refl _, oleq_refl _, oleq_refl _, oleq_refl _⟩

lemma stateLe_updFlex {α : Type} [LinearOrder α] [Zero α]
    (s : FoldState α) (v : Option α) : stateLe s (updFlex s v) := by
  cases v with
  | none => exact stateLe_refl s
  | some x =>
    exact ⟨oleq_refl _, oleq_refl _, oleq_refl _, oleq_refl _,
      oleq_foldMax _ _, oleq_refl _, oleq_refl _, oleq_refl _⟩

lemma stateLe_updExt {α : Type} [LinearOrder α] [Zero α]
    (s : FoldState α) (v : Option α) : stateLe s (updExt s v) := by
  cases v with
  | none => exact stateLe_refl s
  | some x =>
    exact ⟨oleq_refl _, oleq_refl _, oleq_refl _, oleq_refl _,
      oleq_refl _, oleq_foldMax _ _, oleq_refl _, oleq_refl _⟩

lemma stateLe_updMaxFlex {α : Type} [LinearOrder α] [Zero α]
    (s : FoldState α) (v : Option α) : stateLe s (updMaxFlex s v) := by
  cases v with
  | none => exact stateLe_refl s
  | some x =>
    exact ⟨oleq_refl _, oleq_refl _, oleq_refl _, oleq_refl _,
      oleq_refl _, oleq_refl _, oleq_foldMax _ _, oleq_refl _⟩

lemma stateLe_updMaxExt {α : Type} [LinearOrder α] [Zero α]
    (s : FoldState α) (v : Option α) : stateLe s (updMaxExt s v) := by
  cases v with
  | none => exact stateLe_refl s
  | some x =>
    exact ⟨oleq_refl _, oleq_refl _, oleq_refl _, oleq_refl _,
      oleq_refl _, oleq_refl _, oleq_refl _, oleq_foldMax _ _⟩

lemma stateLe_stepFrame {α : Type} [LinearOrder α] [Zero α]
    (s : FoldState α) (f : MotionFrame α) : stateLe s (stepFrame s f) := by
  unfold stepFrame
  cases f.wristAngles with
  | none => exact stateLe_refl s
  | some wa =>
    exact stateLe_trans (stateLe_updFlex s wa.wristFlexionAngle)
      (stateLe_updExt _ wa.wristExtensionAngle)

lemma stateLe_foldFrames {α : Type} [LinearOrder α] [Zero α]
    (frames : List (MotionFrame α)) :
    ∀ s : FoldState α, stateLe s (frames.foldl stepFrame s) := by
  induction frames with
  | nil => intro s; exact stateLe_refl s
  | cons f fs ih =>
    intro s
    rw [List.foldl_cons]
    exact stateLe_trans (stateLe_stepFrame s f) (ih (stepFrame s f))

lemma stateLe_stepRepetition {α : Type} [LinearOrder α] [Zero α]
    (s : FoldState α) (rep : Repetition α) : stateLe s (stepRepetition s rep) := by
  unfold stepRepetition
  have h1 : stateLe s (stepRomData s rep.romData) := stateLe_stepRomData s rep.romData
  have h2 := stateLe_updFlex (stepRomData s rep.romData) rep.wristFlexionAngle
  have h3 := stateLe_updExt (updFlex (stepRomData s rep.romData) rep.wristFlexionAngle)
    rep.wristExtensionAngle
  have h4 := stateLe_updMaxFlex (updExt (updFlex (stepRomData s rep.romData)
    rep.wristFlexionAngle) rep.wristExtensionAngle) rep.maxWristFlexion
  have h5 := stateLe_updMaxExt (updMaxFlex (updExt (updFlex (stepRomData s rep.romData)
    rep.wristFlexionAngle) rep.wristExtensionAngle) rep.maxWristFlexion) rep.maxWristExtension
  have hs2 := stateLe_trans h1 (stateLe_trans h2 (stateLe_trans h3 (stateLe_trans h4 h5)))
  cases rep.motionData with
  | none => exact hs2
  | some frames => exact stateLe_trans hs2 (stateLe_foldFrames frames _)

lemma stateLe_foldReps {α : Type} [LinearOrder α] [Zero α]
    (reps : List (Repetition α)) :
    ∀ s : FoldState α, stateLe s (reps.foldl stepRepetition s) := by
  induction reps with
  | nil => intro s; exact stateLe_refl s
  | cons r rs ih =>
    intro s
    rw [List.foldl_cons]
    exact stateLe_trans (stateLe_stepRepetition s r) (ih (stepRepetition s r))

lemma stateLe_finFlexToMax {α : Type} [LinearOrder α] [Zero α]
    (s : FoldState α) : stateLe s (finFlexToMax s) := by
  unfold finFlexToMax
  cases hf : s.wristFlexionAngle with
  | none => exact stateLe_refl s
  | some v =>
    exact ⟨oleq_refl _, oleq_refl _, oleq_refl _, oleq_refl _,
      (by rw [hf]; exact oleq_refl _), oleq_refl _, oleq_foldMax _ _, oleq_refl _⟩

lemma stateLe_finExtToMax {α : Type} [LinearOrder α] [Zero α]
    (s : FoldState α) : stateLe s (finExtToMax s) := by
  unfold finExtToMax
  cases he : s.wristExtensionAngle with
  | none => exact stateLe_refl s
  | some v =>
    exact ⟨oleq_refl _, oleq_refl _, oleq_refl _, oleq_refl _,
      oleq_refl _, (by rw [he]; exact oleq_refl _), oleq_refl _, oleq_foldMax _ _⟩

lemma stateLe_finalizeWristMax {α : Type} [LinearOrder α] [Zero α]
    (s : FoldState α) : stateLe s (finalizeWristMax s) :=
  stateLe_trans (stateLe_finFlexToMax s) (stateLe_finExtToMax _)

/-- Client-side current/maximum ROM record (`JointAngles` in the page). -/
structure ClientROM (α : Type) where
  mcpAngle : α
  pipAngle : α
  dipAngle : α
  totalActiveRom : α

/-- The `setMaxROM` updater run on each frame during recording:
componentwise `Math.max` of the previous maxima and the frame's ROM. -/
def clientMaxStep {α : Type} [LinearOrder α]
    (prev rom : ClientROM α) : ClientROM α :=
  { mcpAngle := max prev.mcpAngle rom.mcpAngle
    pipAngle := max prev.pipAngle rom.pipAngle
    dipAngle := max prev.dipAngle rom.dipAngle
    totalActiveRom := max prev.totalActiveRom rom.totalActiveRom }

lemma clientMaxStep_mono {α : Type} [LinearOrder α] (prev rom : ClientROM α) :
    prev.mcpAngle ≤ (clientMaxStep prev rom).mcpAngle ∧
    prev.pipAngle ≤ (clientMaxStep prev rom).pipAngle ∧
    prev.dipAngle ≤ (clientMaxStep prev rom).dipAngle ∧
    prev.totalActiveRom ≤ (clientMaxStep prev rom).totalActiveRom :=
  ⟨le_max_left _ _, le_max_left _ _, le_max_left _ _, le_max_left _ _⟩

lemma clientMaxFold_mono {α : Type} [LinearOrder α] (roms : List (ClientROM α)) :
    ∀ prev : ClientROM α,
      prev.mcpAngle ≤ (roms.foldl clientMaxStep prev).mcpAngle ∧
      prev.pipAngle ≤ (roms.foldl clientMaxStep prev).pipAngle ∧
      prev.dipAngle ≤ (roms.foldl clientMaxStep prev).dipAngle ∧
      prev.totalActiveRom ≤ (roms.foldl clientMaxStep prev).totalActiveRom := by
  induction roms with
  | nil => intro prev; exact ⟨le_refl _, le_refl _, le_refl _, le_refl _⟩
  | cons r rs ih =>
    intro prev
    rw [List.foldl_cons]
    obtain ⟨ha, hb, hc, hd⟩ := ih (clientMaxStep prev r)
    obtain ⟨ha', hb', hc', hd'⟩ := clientMaxStep_mono prev r
    exact ⟨le_trans ha' ha, le_trans hb' hb, le_trans hc' hc, le_trans hd' hd⟩

/-- Claim C2: every running session maximum is monotonically non-decreasing as
frames and repetitions are folded in.  Server side: each of the eight maxima
that the completion handler folds with `Math.max` over `repetitionData` (and
over the per-frame `wristAngles`) can only appear or grow, never shrink or
disappear.  Client side: each of the four `maxROM` components updated by
`setMaxROM` during recording is non-decreasing across any sequence of frames. -/
theorem c2_session_maxima_monotone :
    (∀ (init : FoldState ℝ) (reps : List (Repetition ℝ)),
      stateLe init (serverMaximaFold init reps)) ∧
    (∀ (prev : ClientROM ℝ) (roms : List (ClientROM ℝ)),
      prev.mcpAngle ≤ (roms.foldl clientMaxStep prev).mcpAngle ∧
      prev.pipAngle ≤ (roms.foldl clientMaxStep prev).pipAngle ∧
      prev.dipAngle ≤ (roms.foldl clientMaxStep prev).dipAngle ∧
      prev.totalActiveRom ≤ (roms.foldl clientMaxStep prev).totalActiveRom) := by
  constructor
  · intro init reps
    exact stateLe_trans (stateLe_foldReps reps init) (stateLe_finalizeWristMax _)
  · intro prev roms
    exact clientMaxFold_mono roms prev

/-! ## Temporal-quality gating at finalize (server/routes.ts) -/

/-- The constant `TEMPORAL_QUALITY_THRESHOLD = 0.7` from the completion handler. -/
def temporalQualityThreshold : ℚ := 7/10

/-- The JS test `temporalQuality.finger >= TEMPORAL_QUALITY_THRESHOLD`:
an absent quality entry (`undefined`) compares false. -/
def qualPassesB (q : Option ℚ) : Bool :=
  match q with
  | some v => decide (temporalQualityThreshold ≤ v)
  | none => false

/-- JavaScript `x || null` on a possibly-absent number: `undefined` and a
computed `0` both collapse to `null`. -/
def orNull {α : Type} [Zero α] [DecidableEq α] (r : Option α) : Option α :=
  match r with
  | some v => if v = 0 then none else some v
  | none => none

/-- One gated assignment of the handler:
`field = (quality >= THRESHOLD) ? computed || null : null`. -/
def gateRom {α : Type} [Zero α] [DecidableEq α]
    (q : Option ℚ) (r : Option α) : Option α :=
  if qualPassesB q then orNull r else none

/-- The `temporalQuality` object of the ROM-calculator result. -/
structure TemporalQuality where
  index : Option ℚ
  middle : Option ℚ
  ring : Option ℚ
  pinky : Option ℚ

/-- One finger's computed ROM result. -/
structure FingerResult (α : Type) where
  mcpAngle : α
  pipAngle : α
  dipAngle : α
  totalActiveRom : α

/-- The per-finger results object (`allFingersROM`). -/
structure AllFingers (α : Type) where
  index : Option (FingerResult α)
  middle : Option (FingerResult α)
  ring : Option (FingerResult α)
  pinky : Option (FingerResult α)

/-- The gated per-finger fields that the handler stores (the index finger has
only its total ROM stored; middle, ring and pinky also store the three joint
angles). -/
structure StoredFingers (α : Type) where
  indexFingerRom : Option α
  middleFingerRom : Option α
  ringFingerRom : Option α
  pinkyFingerRom : Option α
  middleFingerMcp : Option α
  middleFingerPip : Option α
  middleFingerDip : Option α
  ringFingerMcp : Option α
  ringFingerPip : Option α
  ringFingerDip : Option α
  pinkyFingerMcp : Option α
  pinkyFingerPip : Option α
  pinkyFingerDip : Option α

/-- The block of thirteen gated assignments of the completion handler, one
`gateRom` per stored metric. -/
def serverFinalize {α : Type} [Zero α] [DecidableEq α]
    (tq : TemporalQuality) (rom : AllFingers α) : StoredFingers α :=
  { indexFingerRom := gateRom tq.index (rom.index.map FingerResult.totalActiveRom)
    middleFingerRom := gateRom tq.middle (rom.middle.map FingerResult.totalActiveRom)
    ringFingerRom := gateRom tq.ring (rom.ring.map FingerResult.totalActiveRom)
    pinkyFingerRom := gateRom tq.pinky (rom.pinky.map FingerResult.totalActiveRom)
    middleFingerMcp := gateRom tq.middle (rom.middle.map FingerResult.mcpAngle)
    middleFingerPip := gateRom tq.middle (rom.middle.map FingerResult.pipAngle)
    middleFingerDip := gateRom tq.middle (rom.middle.map FingerResult.dipAngle)
    ringFingerMcp := gateRom tq.ring (rom.ring.map FingerResult.mcpAngle)
    ringFingerPip := gateRom tq.ring (rom.ring.map FingerResult.pipAngle)
    ringFingerDip := gateRom tq.ring (rom.ring.map FingerResult.dipAngle)
    pinkyFingerMcp := gateRom tq.pinky (rom.pinky.map FingerResult.mcpAngle)
    pinkyFingerPip := gateRom tq.pinky (rom.pinky.map FingerResult.pipAngle)
    pinkyFingerDip := gateRom tq.pinky (rom.pinky.map FingerResult.dipAngle) }

/-- The behaviour of one gated stored metric: below-threshold quality yields
`null`; the stored value is never a `0`; and a passing quality keeps a
*nonzero* computed value. -/
def GatedOk {α : Type} [Zero α] (q : Option ℚ) (r s : Option α) : Prop :=
  (qualPassesB q = false → s = none) ∧
  (∀ z : α, s = some z → z ≠ 0 ∧ r = some z) ∧
  (∀ v : α, qualPassesB q = true → r = some v → v ≠ 0 → s = some v)

lemma gateRom_gatedOk {α : Type} [Zero α] [DecidableEq α]
    (q : Option ℚ) (r : Option α) : GatedOk q r (gateRom q r) := by
  unfold GatedOk gateRom
  by_cases hq : qualPassesB q = true
  · rw [if_pos hq]
    refine ⟨?_, ?_, ?_⟩
    · intro hfalse
      rw [hq] at hfalse
      cases hfalse
    · intro z hz
      cases r with
      | none => cases hz
      | some v =>
        simp only [orNull] at hz
        by_cases h0 : v = 0
        · rw [if_pos h0] at hz
          cases hz
        · rw [if_neg h0] at hz
          cases hz
          exact ⟨h0, rfl⟩
    · intro v _ hr h0
      rw [hr]
      simp only [orNull]
      rw [if_neg h0]
  · rw [if_neg hq]
    refine ⟨fun _ => rfl, ?_, ?_⟩
    · intro z hz
      cases hz
    · intro v htrue
      exact absurd htrue hq

lemma gateRom_some_zero (q : Option ℚ) : gateRom q (some (0 : ℚ)) = none := by
  unfold gateRom orNull
  split_ifs with h
  · rfl
  · rfl

/-- Counterexample to claim C4: a finger whose temporal quality (0.8) is at or
above the 0.7 threshold and whose computed `totalActiveRom` is exactly `0`
does *not* keep its computed value — the `|| null` coercion stores `null`
instead of `0`, refuting "metrics at or above the threshold keep their
computed values". -/
theorem c4_counterexample_zero_not_kept :
    qualPassesB (some (8/10)) = true ∧
    ((⟨some ⟨1, 2, 3, 0⟩, none, none, none⟩ : AllFingers ℚ).index.map
      FingerResult.totalActiveRom) = some 0 ∧
    (serverFinalize ⟨some (8/10), none, none, none⟩
      (⟨some ⟨1, 2, 3, 0⟩, none, none, none⟩ : AllFingers ℚ)).indexFingerRom = none := by
  refine ⟨by norm_num [qualPassesB, temporalQualityThreshold], rfl, ?_⟩
  show gateRom (some (8/10)) (Option.map FingerResult.totalActiveRom (some ⟨1, 2, 3, 0⟩)) = none
  exact gateRom_some_zero _

/-- Claim C4 (amended): at session finalize, every finger metric whose
temporal quality is below `TEMPORAL_QUALITY_THRESHOLD` (0.7) — or whose
quality entry is absent — is stored as `null`; a stored value is never `0`
(it is always the nonzero computed value); and a metric at or above the
threshold keeps its computed value *provided that value is nonzero* — a
computed `0` is also stored as `null` because of the `|| null` coercion. -/
theorem c4_amended_quality_gating (tq : TemporalQuality) (rom : AllFingers ℚ) :
    GatedOk tq.index (rom.index.map FingerResult.totalActiveRom)
      (serverFinalize tq rom).indexFingerRom ∧
    GatedOk tq.middle (rom.middle.map FingerResult.totalActiveRom)
      (serverFinalize tq rom).middleFingerRom ∧
    GatedOk tq.ring (rom.ring.map FingerResult.totalActiveRom)
      (serverFinalize tq rom).ringFingerRom ∧
    GatedOk tq.pinky (rom.pinky.map FingerResult.totalActiveRom)
      (serverFinalize tq rom).pinkyFingerRom ∧
    GatedOk tq.middle (rom.middle.map FingerResult.mcpAngle)
      (serverFinalize tq rom).middleFingerMcp ∧
    GatedOk tq.middle (rom.middle.map FingerResult.pipAngle)
      (serverFinalize tq rom).middleFingerPip ∧
    GatedOk tq.middle (rom.middle.map FingerResult.dipAngle)
      (serverFinalize tq rom).middleFingerDip ∧
    GatedOk tq.ring (rom.ring.map FingerResult.mcpAngle)
      (serverFinalize tq rom).ringFingerMcp ∧
    GatedOk tq.ring (rom.ring.map FingerResult.pipAngle)
      (serverFinalize tq rom).ringFingerPip ∧
    GatedOk tq.ring (rom.ring.map FingerResult.dipAngle)
      (serverFinalize tq rom).ringFingerDip ∧
    GatedOk tq.pinky (rom.pinky.map FingerResult.mcpAngle)
      (serverFinalize tq rom).pinkyFingerMcp ∧
    GatedOk tq.pinky (rom.pinky.map FingerResult.pipAngle)
      (serverFinalize tq rom).pinkyFingerPip ∧
    GatedOk tq.pinky (rom.pinky.map FingerResult.dipAngle)
      (serverFinalize tq rom).pinkyFingerDip :=
  ⟨gateRom_gatedOk _ _, gateRom_gatedOk _ _, gateRom_gatedOk _ _, gateRom_gatedOk _ _,
   gateRom_gatedOk _ _, gateRom_gatedOk _ _, gateRom_gatedOk _ _, gateRom_gatedOk _ _,
   gateRom_gatedOk _ _, gateRom_gatedOk _ _, gateRom_gatedOk _ _, gateRom_gatedOk _ _,
   gateRom_gatedOk _ _⟩

/-- Claim C9: in the completion endpoint, a finger whose temporal quality
passes the threshold but whose computed `totalActiveRom` is exactly `0` is
stored as `null`, not as `0`, and the stored output is identical to that of a
finger whose quality entry was absent (rejected) — the `|| null` coercion
makes a measured zero indistinguishable from an excluded measurement. -/
theorem c9_measured_zero_stored_null (tq : TemporalQuality) (rom : AllFingers ℚ)
    (fr : FingerResult ℚ) (_hq : qualPassesB tq.index = true)
    (hv : rom.index = some fr) (h0 : fr.totalActiveRom = 0) :
    (serverFinalize tq rom).indexFingerRom = none ∧
    (serverFinalize tq rom).indexFingerRom =
      (serverFinalize ⟨none, tq.middle, tq.ring, tq.pinky⟩ rom).indexFingerRom := by
  have hmain : (serverFinalize tq rom).indexFingerRom = none := by
    show gateRom tq.index (rom.index.map FingerResult.totalActiveRom) = none
    rw [hv]
    show gateRom tq.index (some fr.totalActiveRom) = none
    rw [h0]
    exact gateRom_some_zero _
  refine ⟨hmain, ?_⟩
  rw [hmain]
  rfl

/-- Witness for C9: with quality 1.0 for the index finger and a computed
`totalActiveRom` of exactly `0`, the stored `indexFingerRom` is `null`. -/
theorem c9_witness :
    (serverFinalize (⟨some 1, none, none, none⟩ : TemporalQuality)
      (⟨some ⟨80, 70, 60, 0⟩, none, none, none⟩ : AllFingers ℚ)).indexFingerRom = none ∧
    (serverFinalize (⟨some 1, none, none, none⟩ : TemporalQuality)
      (⟨some ⟨80, 70, 60, 0⟩, none, none, none⟩ : AllFingers ℚ)).indexFingerRom =
    (serverFinalize (⟨none, none, none, none⟩ : TemporalQuality)
      (⟨some ⟨80, 70, 60, 0⟩, none, none, none⟩ : AllFingers ℚ)).indexFingerRom :=
  c9_measured_zero_stored_null ⟨some 1, none, none, none⟩
    ⟨some ⟨80, 70, 60, 0⟩, none, none, none⟩ ⟨80, 70, 60, 0⟩
    (by norm_num [qualPassesB, temporalQualityThreshold]) rfl rfl

/-! ## DASH score (client/src/components/dash-assessment.tsx) -/

/-- JavaScript `Math.round(x * 10) / 10`: round to one decimal place.
`Math.round` rounds half away from zero toward positive infinity, which is
exactly Mathlib's `round` (`⌊x + 1/2⌋`). -/
def round1 (x : ℚ) : ℚ :=
  (round (x * 10) : ℤ) / 10

/-- The function `calculateDashScore` from `dash-assessment.tsx`: filter the response
values to the positive ones; if fewer than 27 remain return `null`, else
rescale the mean from the 1–5 scale to 0–100 and round to one decimal. -/
def calculateDashScore (responses : List ℚ) : Option ℚ :=
  let validResponses := responses.filter (fun v => decide (0 < v))
  if validResponses.length < 27 then none
  else
    let avg := validResponses.sum / (validResponses.length : ℚ)
    some (round1 (((avg - 1) / 4) * 100))

/-- Claim C10: `calculateDashScore` returns `null` exactly when fewer than 27
of the questions have a positive response; otherwise it returns the mean of
the answered 1–5 responses rescaled by `((mean - 1) / 4) * 100` and rounded
to one decimal place, and that value always lies in `[0, 100]`. -/
theorem c10_dash_score (responses : List ℚ)
    (hvals : ∀ v ∈ responses, 1 ≤ v ∧ v ≤ 5) :
    (calculateDashScore responses = none ↔
      (responses.filter (fun v => decide (0 < v))).length < 27) ∧
    (∀ s, calculateDashScore responses = some s →
      s = round1 (((responses.sum / (responses.length : ℚ) - 1) / 4) * 100) ∧
      0 ≤ s ∧ s ≤ 100) := by
  have hfilter : responses.filter (fun v => decide (0 < v)) = responses := by
    apply List.filter_eq_self.mpr
    intro v hv
    exact decide_eq_true (lt_of_lt_of_le one_pos (hvals v hv).1)
  unfold calculateDashScore
  rw [hfilter]
  by_cases hlen : responses.length < 27
  · rw [if_pos hlen]
    constructor
    · constructor
      · intro _
        exact hlen
      · intro _
        rfl
    · intro s hs
      cases hs
  · rw [if_neg hlen]
    refine ⟨⟨fun h => (by cases h), fun h => absurd h hlen⟩, ?_⟩
    intro s hs
    have hne : responses.length ≠ 0 := by
      intro h0
      rw [h0] at hlen
      exact hlen (by norm_num)
    have hlpos : (0 : ℚ) < (responses.length : ℚ) := by
      exact_mod_cast Nat.pos_of_ne_zero hne
    have hsum_lo : (responses.length : ℚ) * 1 ≤ responses.sum := by
      have := List.card_nsmul_le_sum responses 1 (fun x hx => (hvals x hx).1)
      simpa [nsmul_eq_mul] using this
    have hsum_hi : responses.sum ≤ (responses.length : ℚ) * 5 := by
      have := List.sum_le_card_nsmul responses 5 (fun x hx => (hvals x hx).2)
      simpa [nsmul_eq_mul] using this
    have havg_lo : (1 : ℚ) ≤ responses.sum / (responses.length : ℚ) :=
      (le_div_iff₀ hlpos).mpr (by linarith)
    have havg_hi : responses.sum / (responses.length : ℚ) ≤ 5 :=
      (div_le_iff₀ hlpos).mpr (by linarith)
    set y : ℚ := ((responses.sum / (responses.length : ℚ) - 1) / 4) * 100 with hy
    have hy_lo : (0 : ℚ) ≤ y := by
      rw [hy]
      have : (0 : ℚ) ≤ (responses.sum / (responses.length : ℚ) - 1) / 4 := by linarith
      linarith
    have hy_hi : y ≤ 100 := by
      rw [hy]
      have : (responses.sum / (responses.length : ℚ) - 1) / 4 ≤ 1 := by linarith
      linarith
    have hr_lo : (0 : ℤ) ≤ round (y * 10) := by
      rw [round_eq]
      exact Int.le_floor.mpr (by push_cast; linarith)
    have hr_hi : round (y * 10) ≤ 1000 := by
      rw [round_eq]
      have h0 : ⌊y * 10 + 1/2⌋ < 1001 := Int.floor_lt.mpr (by push_cast; linarith)
      omega
    have hs' : s = round1 y := by
      injection hs with h
      exact h.symm
    refine ⟨hs', ?_, ?_⟩
    · rw [hs']
      unfold round1
      have : ((0 : ℤ) : ℚ) ≤ (round (y * 10) : ℚ) := by exact_mod_cast hr_lo
      positivity
    · rw [hs']
      unfold round1
      rw [div_le_iff₀ (by norm_num : (0:ℚ) < 10)]
      have h1000 : ((round (y * 10) : ℤ) : ℚ) ≤ 1000 := by exact_mod_cast hr_hi
      linarith


/-- Witness for C10: 27 answered questions, each response `3`, pass the
threshold and score `round1(((3 - 1) / 4) * 100) = 50`, inside `[0, 100]`. -/
theorem c10_witness :
    calculateDashScore (List.replicate 27 3) = some 50 ∧
    ¬ ((List.replicate 27 (3:ℚ)).filter (fun v => decide (0 < v))).length < 27 ∧
    (0 : ℚ) ≤ 50 ∧ (50 : ℚ) ≤ 100 := by
  have h := c10_dash_score (List.replicate 27 3) (by
    intro v hv
    rw [List.eq_of_mem_replicate hv]
    norm_num)
  have hfil : (List.replicate 27 (3:ℚ)).filter (fun v => decide (0 < v)) =
      List.replicate 27 3 := by
    apply List.filter_eq_self.mpr
    intro v hv
    rw [List.eq_of_mem_replicate hv]
    norm_num
  have heval : calculateDashScore (List.replicate 27 3) = some 50 := by
    unfold calculateDashScore
    rw [hfil]
    rw [if_neg (by simp)]
    show some (round1 (((List.replicate 27 (3:ℚ)).sum /
      (((List.replicate 27 (3:ℚ)).length : ℕ) : ℚ) - 1) / 4 * 100)) = some 50
    have hsum : (List.replicate 27 (3:ℚ)).sum = 81 := by
      rw [List.sum_replicate]
      norm_num
    rw [hsum, List.length_replicate]
    norm_num [round1, round_eq]
  obtain ⟨_, h0, h100⟩ := h.2 50 heval
  refine ⟨heval, fun hlt => ?_, h0, h100⟩
  have hnone := h.1.mpr hlt
  rw [heval] at hnone
  cases hnone

/-! ## Kapandji thumb-opposition scoring (spec §4.3) -/

/-- Squared Euclidean distance between two landmark points. -/
def distSq (a b : Vec3Q) : ℚ :=
  (a.x - b.x)^2 + (a.y - b.y)^2 + (a.z - b.z)^2

/-- Modelled from the spec: the proximity threshold of the Kapandji scorer
(`shared/kapandji-calculator` is not part of the repository snapshot).  The
spec fixes only that a rung is achieved when the thumb-tip distance to the
target is below a proximity threshold; the value `0.05` (squared here) in
normalized camera units stands in for the implementation constant. -/
def kapandjiThresholdSq : ℚ := 1/400

/-- Modelled from the spec: the fixed ladder of ten target landmarks on the
radial border of the hand (spec §4.3), as MediaPipe hand-landmark indices:
index proximal phalanx (6), index middle phalanx (7), index tip (8), middle
tip (12), ring tip (16), pinky tip (20), pinky distal crease (19), pinky
proximal crease (18), palmar crease (17), distal palmar crease (9).  The
exact anatomical correspondence is fixed at implementation time. -/
def kapandjiTargets : List ℕ := [6, 7, 8, 12, 16, 20, 19, 18, 17, 9]

/-- Whether the thumb tip (landmark 4) is within the proximity threshold of
the target landmark with the given index; frames without both landmarks
reach nothing. -/
def reachesTarget (lms : List Vec3Q) (idx : ℕ) : Bool :=
  match lms.get? 4, lms.get? idx with
  | some thumbTip, some target => decide (distSq thumbTip target < kapandjiThresholdSq)
  | _, _ => false

/-- Modelled from the spec: the per-frame Kapandji rung — the highest-indexed
target whose distance is below the proximity threshold (0 when none is). -/
def frameKapandjiRung (lms : List Vec3Q) : ℕ :=
  (List.range 10).foldl
    (fun acc i => if reachesTarget lms (kapandjiTargets.getD i 0) then i + 1 else acc) 0

/-- Which targets were reached in some frame of the session; the completion
handler reads these flags from `kapandjiResult.details`. -/
structure KapandjiDetails where
  indexProximalPhalanx : Bool
  indexMiddlePhalanx : Bool
  indexTip : Bool
  middleTip : Bool
  ringTip : Bool
  littleTip : Bool

/-- The result object of `calculateMaxKapandjiScore`. -/
structure KapandjiResult where
  maxScore : ℕ
  details : KapandjiDetails

/-- Modelled from the spec: `calculateMaxKapandjiScore` of
`shared/kapandji-calculator` (not part of the repository snapshot; only its
call site in the completion handler is).  The session score is the ratchet
maximum of the per-frame rungs over all frames. -/
def calculateMaxKapandjiScore (frames : List (List Vec3Q)) : KapandjiResult :=
  { maxScore := frames.foldl (fun acc f => max acc (frameKapandjiRung f)) 0
    details :=
      { indexProximalPhalanx := frames.any (fun f => reachesTarget f 6)
        indexMiddlePhalanx := frames.any (fun f => reachesTarget f 7)
        indexTip := frames.any (fun f => reachesTarget f 8)
        middleTip := frames.any (fun f => reachesTarget f 12)
        ringTip := frames.any (fun f => reachesTarget f 16)
        littleTip := frames.any (fun f => reachesTarget f 20) } }

lemma foldl_max_eq_max_foldr (g : List Vec3Q → ℕ) (l : List (List Vec3Q)) :
    ∀ a : ℕ, l.foldl (fun acc f => max acc (g f)) a = max a ((l.map g).foldr max 0) := by
  induction l with
  | nil =>
    intro a
    simp
  | cons x xs ih =>
    intro a
    rw [List.foldl_cons, ih (max a (g x)), List.map_cons, List.foldr_cons, max_assoc]

lemma foldl_max_le_self (g : List Vec3Q → ℕ) (l : List (List Vec3Q)) :
    ∀ a : ℕ, a ≤ l.foldl (fun acc f => max acc (g f)) a := by
  induction l with
  | nil =>
    intro a
    exact le_refl a
  | cons x xs ih =>
    intro a
    rw [List.foldl_cons]
    exact le_trans (le_max_left a (g x)) (ih (max a (g x)))

/-- Claim C3: the session Kapandji score equals the maximum of the per-frame
rungs over all frames of the session, and appending further frames never
decreases it. -/
theorem c3_kapandji_score_is_max_of_rungs :
    (∀ frames : List (List Vec3Q),
      (calculateMaxKapandjiScore frames).maxScore =
        (frames.map frameKapandjiRung).foldr max 0) ∧
    (∀ frames more : List (List Vec3Q),
      (calculateMaxKapandjiScore frames).maxScore ≤
        (calculateMaxKapandjiScore (frames ++ more)).maxScore) := by
  constructor
  · intro frames
    show frames.foldl (fun acc f => max acc (frameKapandjiRung f)) 0 = _
    rw [foldl_max_eq_max_foldr]
    exact Nat.zero_max _
  · intro frames more
    show frames.foldl (fun acc f => max acc (frameKapandjiRung f)) 0 ≤
      (frames ++ more).foldl (fun acc f => max acc (frameKapandjiRung f)) 0
    rw [List.foldl_append]
    exact foldl_max_le_self _ more _

/-! ## The assessment completion handler as a pure function of its request
(server/routes.ts), with the wall clock as an explicit parameter -/

/-- Coercion of a recorded rational landmark into the real-valued geometry. -/
noncomputable def toVec3 (p : Vec3Q) : Vec3 :=
  ⟨(p.x : ℝ), (p.y : ℝ), (p.z : ℝ)⟩

/-- Modelled from the spec: one frame's joint angles for the finger whose
MCP/PIP/DIP/TIP landmarks start at `base` (5 = index, 9 = middle, 13 = ring,
17 = pinky); a frame with fewer than 21 landmarks is skipped
(`InsufficientLandmarks`, spec §4.1/§7). -/
noncomputable def fingerResultOfFrame (lms : List Vec3Q) (base : ℕ) :
    Option (FingerResult ℝ) :=
  if 21 ≤ lms.length then
    let a := fingerAngles (toVec3 (lms.getD 0 ⟨0, 0, 0⟩)) (toVec3 (lms.getD base ⟨0, 0, 0⟩))
      (toVec3 (lms.getD (base + 1) ⟨0, 0, 0⟩)) (toVec3 (lms.getD (base + 2) ⟨0, 0, 0⟩))
      (toVec3 (lms.getD (base + 3) ⟨0, 0, 0⟩))
    some ⟨a.mcpAngle, a.pipAngle, a.dipAngle, a.totalActiveRom⟩
  else none

/-- Componentwise maximum of two finger results (per-frame max of each angle,
spec §4.2). -/
noncomputable def maxFingerResult (a b : FingerResult ℝ) : FingerResult ℝ :=
  ⟨max a.mcpAngle b.mcpAngle, max a.pipAngle b.pipAngle,
   max a.dipAngle b.dipAngle, max a.totalActiveRom b.totalActiveRom⟩

/-- Modelled from the spec: the per-finger session maxima over all frames. -/
noncomputable def foldFingerMax (frames : List (MotionFrame ℝ)) (base : ℕ) :
    Option (FingerResult ℝ) :=
  frames.foldl (fun acc f =>
    match fingerResultOfFrame f.landmarks base, acc with
    | some r, some m => some (maxFingerResult m r)
    | some r, none => some r
    | none, acc' => acc') none

/-- The visibility-bypass ratio `0.8` of the temporal quality gate (spec §4.5). -/
def visibilityBypassRatio : ℚ := 8/10

/-- The artifact-deviation threshold of the temporal quality gate, in degrees
(spec §4.5 leaves the value configured; a named stand-in constant). -/
noncomputable def artifactDeviationThreshold : ℝ := 45

/-- Median of a list of reals (the spec's short rolling median of a metric's
recent values, modelled over the session's values). -/
noncomputable def medianR (l : List ℝ) : ℝ :=
  let s := l.mergeSort (fun a b => decide (a ≤ b))
  s.getD (s.length / 2) 0

/-- The per-frame total-active-motion values of one finger across the session. -/
noncomputable def fingerTamValues (frames : List (MotionFrame ℝ)) (base : ℕ) : List ℝ :=
  frames.filterMap (fun f => (fingerResultOfFrame f.landmarks base).map FingerResult.totalActiveRom)

/-- Modelled from the spec: the temporal quality score of one finger
(spec §4.5).  Visibility ratio at or above `0.8` bypasses the gate with
quality `1.0`; otherwise the quality is `0.3 + 0.6 ×` the fraction of frames
whose value is within the artifact threshold of the median, a value in
`[0.3, 0.9]`. -/
noncomputable def fingerTemporalQuality (frames : List (MotionFrame ℝ)) (base : ℕ) :
    Option ℚ :=
  if frames.length = 0 then none
  else
    let valid := fingerTamValues frames base
    let ratio : ℚ := (valid.length : ℚ) / (frames.length : ℚ)
    if visibilityBypassRatio ≤ ratio then some 1
    else if valid.length = 0 then some (3/10)
    else
      let med := medianR valid
      let consistent := valid.countP (fun v => decide (|v - med| ≤ artifactDeviationThreshold))
      some (3/10 + 6/10 * ((consistent : ℚ) / (valid.length : ℚ)))

/-- Modelled from the spec: `calculateAllFingersMaxROM` of
`shared/rom-calculator` (not part of the repository snapshot; only its call
site in the completion handler is): the per-finger maxima and the temporal
quality scores of the four fingers. -/
noncomputable def calculateAllFingersMaxROM (frames : List (MotionFrame ℝ)) :
    AllFingers ℝ × TemporalQuality :=
  (⟨foldFingerMax frames 5, foldFingerMax frames 9,
    foldFingerMax frames 13, foldFingerMax frames 17⟩,
   ⟨fingerTemporalQuality frames 5, fingerTemporalQuality frames 9,
    fingerTemporalQuality frames 13, fingerTemporalQuality frames 17⟩)

/-- The finger display values that the Kapandji branch of the handler stores
(`details.indexTip ? 3 : details.indexMiddlePhalanx ? 2 : ...`). -/
noncomputable def kapandjiFingerDisplay (d : KapandjiDetails) : StoredFingers ℝ :=
  { indexFingerRom := some (if d.indexTip then 3 else if d.indexMiddlePhalanx then 2
      else if d.indexProximalPhalanx then 1 else 0)
    middleFingerRom := some (if d.middleTip then 4 else 0)
    ringFingerRom := some (if d.ringTip then 5 else 0)
    pinkyFingerRom := some (if d.littleTip then 6 else 0)
    middleFingerMcp := none
    middleFingerPip := none
    middleFingerDip := none
    ringFingerMcp := none
    ringFingerPip := none
    ringFingerDip := none
    pinkyFingerMcp := none
    pinkyFingerPip := none
    pinkyFingerDip := none }

/-- All-null stored finger fields (their initial values in the handler). -/
def emptyStoredFingers : StoredFingers ℝ :=
  { indexFingerRom := none, middleFingerRom := none, ringFingerRom := none
    pinkyFingerRom := none, middleFingerMcp := none, middleFingerPip := none
    middleFingerDip := none, ringFingerMcp := none, ringFingerPip := none
    ringFingerDip := none, pinkyFingerMcp := none, pinkyFingerPip := none
    pinkyFingerDip := none }

/-- The request body of the completion endpoint (the fields the handler
reads), plus the assessment name looked up from storage. -/
structure CompleteRequest where
  repetitionData : Option (List (Repetition ℝ))
  qualityScore : Option ℚ
  handType : Option HandType
  reqWristFlexionAngle : Option ℝ
  reqWristExtensionAngle : Option ℝ
  reqMaxWristFlexion : Option ℝ
  reqMaxWristExtension : Option ℝ
  maxRadialDeviation : Option ℝ
  maxUlnarDeviation : Option ℝ
  dashScore : Option ℚ
  assessmentName : String

/-- The initial maxima: the four joint maxima start `null`; the four wrist
values start from the top-level request values through `|| null`. -/
noncomputable def initFoldState (req : CompleteRequest) : FoldState ℝ :=
  { maxMcpAngle := none
    maxPipAngle := none
    maxDipAngle := none
    totalActiveRom := none
    wristFlexionAngle := orNull req.reqWristFlexionAngle
    wristExtensionAngle := orNull req.reqWristExtensionAngle
    maxWristFlexion := orNull req.reqMaxWristFlexion
    maxWristExtension := orNull req.reqMaxWristExtension }

/-- The concatenation of all repetitions' motion frames (`allMotionFrames`). -/
def allMotionFramesOf (reps : List (Repetition ℝ)) : List (MotionFrame ℝ) :=
  reps.foldl (fun acc r => acc ++ r.motionData.getD []) []

/-- The record the handler persists for the completed assessment. -/
structure StoredAssessment where
  completedAt : ℕ
  sessionNumber : ℕ
  qualityScore : Option ℚ
  handType : Option HandType
  maxMcpAngle : Option ℝ
  maxPipAngle : Option ℝ
  maxDipAngle : Option ℝ
  totalActiveRom : Option ℝ
  kapandjiScore : Option ℕ
  fingers : StoredFingers ℝ
  wristFlexionAngle : Option ℝ
  wristExtensionAngle : Option ℝ
  maxWristFlexion : Option ℝ
  maxWristExtension : Option ℝ
  maxRadialDeviation : Option ℝ
  maxUlnarDeviation : Option ℝ
  dashScore : Option ℚ

/-- The completion handler as a pure function: the request body and the
stored-assessment count determine everything except `completedAt`, which is
stamped from the wall clock (`new Date()`), passed here as `now`. -/
noncomputable def completeAssessment (req : CompleteRequest)
    (existingSessionCount : ℕ) (now : ℕ) : StoredAssessment :=
  let folded := match req.repetitionData with
    | some reps => serverMaximaFold (initFoldState req) reps
    | none => initFoldState req
  let frames := match req.repetitionData with
    | some reps => allMotionFramesOf reps
    | none => []
  let isKap := req.assessmentName = "Kapandji Score"
  let kapRes := calculateMaxKapandjiScore (frames.map MotionFrame.landmarks)
  let romRes := calculateAllFingersMaxROM frames
  { completedAt := now
    sessionNumber := existingSessionCount + 1
    qualityScore := req.qualityScore
    handType := req.handType
    maxMcpAngle := folded.maxMcpAngle
    maxPipAngle := folded.maxPipAngle
    maxDipAngle := folded.maxDipAngle
    totalActiveRom := if frames.length ≠ 0 ∧ isKap then some (kapRes.maxScore : ℝ)
      else folded.totalActiveRom
    kapandjiScore := if frames.length ≠ 0 ∧ isKap then some kapRes.maxScore else none
    fingers := if frames.length ≠ 0 then
        (if isKap then kapandjiFingerDisplay kapRes.details
         else serverFinalize romRes.2 romRes.1)
      else emptyStoredFingers
    wristFlexionAngle := folded.wristFlexionAngle
    wristExtensionAngle := folded.wristExtensionAngle
    maxWristFlexion := folded.maxWristFlexion
    maxWristExtension := folded.maxWristExtension
    maxRadialDeviation := orNull req.maxRadialDeviation
    maxUlnarDeviation := orNull req.maxUlnarDeviation
    dashScore := req.dashScore }

/-- The session outputs of a stored assessment: everything except the
clock-stamped `completedAt` and the storage-derived `sessionNumber`. -/
structure SessionOutputs where
  qualityScore : Option ℚ
  handType : Option HandType
  maxMcpAngle : Option ℝ
  maxPipAngle : Option ℝ
  maxDipAngle : Option ℝ
  totalActiveRom : Option ℝ
  kapandjiScore : Option ℕ
  fingers : StoredFingers ℝ
  wristFlexionAngle : Option ℝ
  wristExtensionAngle : Option ℝ
  maxWristFlexion : Option ℝ
  maxWristExtension : Option ℝ
  maxRadialDeviation : Option ℝ
  maxUlnarDeviation : Option ℝ
  dashScore : Option ℚ

/-- Projection of a stored assessment onto its session outputs. -/
noncomputable def sessionOutputsOf (s : StoredAssessment) : SessionOutputs :=
  { qualityScore := s.qualityScore
    handType := s.handType
    maxMcpAngle := s.maxMcpAngle
    maxPipAngle := s.maxPipAngle
    maxDipAngle := s.maxDipAngle
    totalActiveRom := s.totalActiveRom
    kapandjiScore := s.kapandjiScore
    fingers := s.fingers
    wristFlexionAngle := s.wristFlexionAngle
    wristExtensionAngle := s.wristExtensionAngle
    maxWristFlexion := s.maxWristFlexion
    maxWristExtension := s.maxWristExtension
    maxRadialDeviation := s.maxRadialDeviation
    maxUlnarDeviation := s.maxUlnarDeviation
    dashScore := s.dashScore }

/-- Claim C7: the completion pipeline is deterministic in its input frames.
The handler is a pure function of the request body (and the stored session
count); its only environmental input is the wall clock, which flows solely
into `completedAt`.  Hence two runs on the identical request — at different
wall-clock times — produce identical session maxima, gated finger values,
Kapandji score and quality score. -/
theorem c7_outputs_independent_of_clock :
    ∀ (req : CompleteRequest) (count : ℕ) (t1 t2 : ℕ),
      sessionOutputsOf (completeAssessment req count t1) =
        sessionOutputsOf (completeAssessment req count t2) := by
  intro req count t1 t2
  rfl

end WakeExer
